import Mathlib

/-!
Shallow embedding of the IMU polling tool (`src/code.cpp`).

The program is a straight-line sequence of operating-system calls
(`open`, `ioctl` device-select, `write`, `read`) followed by an infinite
sample loop.  We model the operating system as an oracle `Env` giving the
result of each call (indexed by how many calls of that kind have been
issued so far), and the program as a deterministic interpreter threading a
state `St` that records the bus transactions issued so far (`trace`), the
text printed to standard output (`out`) and to the error stream (`err`),
plus the per-kind call counters.  `std::exit(1)` is modelled by the
`Except` error channel carrying the exit status and the final state; the
infinite `while (true)` loop is modelled with explicit fuel, `Except.ok`
meaning "still running after that many iterations".
-/

/-- One bus-level event: a device-select attempt (`ioctl(fd, I2C_SLAVE, addr)`,
with its success flag), a `write` of a byte list returning a transfer count,
or a `read` of one byte returning a transfer count and the byte stored. -/
inductive Ev
  | select (addr : Nat) (ok : Bool)
  | wr (bytes : List Nat) (ret : Int)
  | rd (ret : Int) (v : Nat)
deriving Repr, DecidableEq

/-- The operating-system oracle: result of `open`, of the `k`-th `ioctl`,
of the `k`-th `write` (as a function of the requested byte count), of the
`k`-th `read` (return value and byte stored), and the `strerror(errno)`
text observed at a failure. -/
structure Env where
  openOk : Bool
  ioctlOk : Nat → Bool
  writeRes : Nat → Nat → Int
  readRes : Nat → Int × Nat
  errStr : String

/-- Program state: counters of issued `ioctl`/`write`/`read` calls, the
bus-transaction trace, standard output and error-stream output. -/
structure St where
  nIoctl : Nat
  nWrite : Nat
  nRead : Nat
  trace : List Ev
  out : List String
  err : List String
deriving Repr, DecidableEq

/-- The state at program start: no calls issued, nothing printed. -/
def initSt : St := ⟨0, 0, 0, [], [], []⟩

/-- An environment in which every operating-system call succeeds and
every transfer is complete (the "no transaction fails" runs of the spec). -/
def Env.reliable (env : Env) : Prop :=
  env.openOk = true ∧ (∀ k, env.ioctlOk k = true) ∧
    (∀ k n, env.writeRes k n = (n : Int)) ∧ (∀ k, (env.readRes k).1 = 1)

/-- Lowercase hexadecimal rendering, as `std::hex << int(v)` prints it. -/
def hexStr (n : Nat) : String := String.mk (Nat.toDigits 16 n)

/-- `"Failed to open " << dev << ": " << strerror(errno)` (code.cpp:16). -/
def msgOpenFail (env : Env) : String :=
  "Failed to open /dev/i2c-1: " ++ env.errStr ++ "\n"

/-- `"Failed to set I2C slave 0x" << hex << addr << ...` (code.cpp:24). -/
def msgSetSlaveFail (env : Env) (addr : Nat) : String :=
  "Failed to set I2C slave 0x" ++ hexStr addr ++ ": " ++ env.errStr ++ "\n"

/-- `"I2C write(reg) failed: ..."` (code.cpp:33). -/
def msgWriteRegFail (env : Env) : String :=
  "I2C write(reg) failed: " ++ env.errStr ++ "\n"

/-- `"I2C read failed: ..."` (code.cpp:38). -/
def msgReadFail (env : Env) : String :=
  "I2C read failed: " ++ env.errStr ++ "\n"

/-- `"I2C write(reg,val) failed: ..."` (code.cpp:48). -/
def msgWriteRegValFail (env : Env) : String :=
  "I2C write(reg,val) failed: " ++ env.errStr ++ "\n"

/-- `i2c_set_slave` (code.cpp:22-28): issue the device-select `ioctl`;
on failure print the diagnostic and exit with status 1. -/
def i2c_set_slave (env : Env) (addr : Nat) (s : St) : Except (Nat × St) St :=
  let ok := env.ioctlOk s.nIoctl
  let s1 : St :=
    { s with nIoctl := s.nIoctl + 1, trace := s.trace ++ [Ev.select addr ok] }
  if ok then Except.ok s1
  else Except.error (1, { s1 with err := s1.err ++ [msgSetSlaveFail env addr] })

/-- `read8` (code.cpp:30-42): select the device, write the one-byte register
address, read one byte back; exit with status 1 on any short transfer.
The byte stored by `read` into a `uint8_t` is the oracle byte mod 256. -/
def read8 (env : Env) (addr reg : Nat) (s : St) : Except (Nat × St) (Nat × St) :=
  match i2c_set_slave env addr s with
  | Except.error e => Except.error e
  | Except.ok s1 =>
    let wret := env.writeRes s1.nWrite 1
    let s2 : St :=
      { s1 with nWrite := s1.nWrite + 1, trace := s1.trace ++ [Ev.wr [reg] wret] }
    if wret = 1 then
      let r := env.readRes s2.nRead
      let v := r.2 % 256
      let s3 : St :=
        { s2 with nRead := s2.nRead + 1, trace := s2.trace ++ [Ev.rd r.1 v] }
      if r.1 = 1 then Except.ok (v, s3)
      else Except.error (1, { s3 with err := s3.err ++ [msgReadFail env] })
    else Except.error (1, { s2 with err := s2.err ++ [msgWriteRegFail env] })

/-- `write8` (code.cpp:44-51): select the device, write the two-byte payload
`{reg, val}` in one transaction; exit with status 1 on a short write. -/
def write8 (env : Env) (addr reg val : Nat) (s : St) : Except (Nat × St) St :=
  match i2c_set_slave env addr s with
  | Except.error e => Except.error e
  | Except.ok s1 =>
    let wret := env.writeRes s1.nWrite 2
    let s2 : St :=
      { s1 with nWrite := s1.nWrite + 1,
                trace := s1.trace ++ [Ev.wr [reg, val] wret] }
    if wret = 2 then Except.ok s2
    else Except.error (1, { s2 with err := s2.err ++ [msgWriteRegValFail env] })

/-- Reinterpretation of a 16-bit unsigned value as signed two's-complement,
the effect of the `int16_t(...)` cast in `read16_le`. -/
def toSigned16 (n : Nat) : Int :=
  if n % 65536 < 32768 then ((n % 65536 : Nat) : Int)
  else ((n % 65536 : Nat) : Int) - 65536

/-- `read16_le` (code.cpp:53-57): read the low byte at `reg_l` and the high
byte at `uint8_t(reg_l + 1)` (mod-256 wrap of the cast), combine as
`uint16_t(lo) | (uint16_t(hi) << 8)` and cast to `int16_t`. -/
def read16_le (env : Env) (addr reg_l : Nat) (s : St) : Except (Nat × St) (Int × St) :=
  match read8 env addr reg_l s with
  | Except.error e => Except.error e
  | Except.ok (lo, s1) =>
    match read8 env addr ((reg_l + 1) % 256) s1 with
    | Except.error e => Except.error e
    | Except.ok (hi, s2) =>
      Except.ok (toSigned16 (Nat.lor lo (Nat.shiftLeft hi 8)), s2)

/-- I2C addresses and register constants of `main` (code.cpp:62-80). -/
def ADDR_LSM6 : Nat := 0x6B

def ADDR_LIS3 : Nat := 0x1E

def REG_WHO_AM_I_LSM6 : Nat := 0x0F

def REG_CTRL1_XL : Nat := 0x10

def REG_CTRL2_G : Nat := 0x11

def REG_OUTX_L_G : Nat := 0x22

def REG_OUTX_L_XL : Nat := 0x28

def REG_WHO_AM_I_LIS3 : Nat := 0x0F

def REG_CTRL_REG1 : Nat := 0x20

def REG_CTRL_REG2 : Nat := 0x21

def REG_CTRL_REG3 : Nat := 0x22

def REG_OUT_X_L : Nat := 0x28

/-- `std::setw(6)` padding applied to one value. -/
def padW6 (t : String) : String :=
  String.mk (List.replicate (6 - t.length) ' ') ++ t

/-- One value of the data line: fixed-width signed decimal field. -/
def fmt6 (v : Int) : String := padW6 (toString v)

/-- The per-iteration data line (code.cpp:141-144), ending in `\r`. -/
def dataLine (gx gy gz ax ay az mx my mz : Int) : String :=
  fmt6 gx ++ " " ++ fmt6 gy ++ " " ++ fmt6 gz ++ " | " ++
    fmt6 ax ++ " " ++ fmt6 ay ++ " " ++ fmt6 az ++ " | " ++
    fmt6 mx ++ " " ++ fmt6 my ++ " " ++ fmt6 mz ++ "\r"

/-- `"Configured sensors..."` and `"Press Ctrl+C..."` lines (code.cpp:118-119). -/
def msgConfigured : String := "Configured sensors. Streaming raw data...\n"

def msgPressCtrlC : String := "Press Ctrl+C to stop.\n\n"

/-- The column-header output statement (code.cpp:121-123). -/
def msgHeader : String :=
  "  Gx     Gy     Gz  |  Ax     Ay     Az  |  Mx     My     Mz\n" ++
    "-----------------------------------------------------------------\n"

/-- The `WHO_AM_I` lines (code.cpp:88-89). -/
def whoLineLSM6 (v : Nat) : String := "LSM6DS33 WHO_AM_I = 0x" ++ hexStr v ++ "\n"

def whoLineLIS3 (v : Nat) : String := "LIS3MDL  WHO_AM_I = 0x" ++ hexStr v ++ "\n\n"

/-- The part of `main` before the sample loop (code.cpp:85-123): the two
`WHO_AM_I` reads with their printout, the five configuration writes, and
the banner/header printout.  Runs after a successful `open`. -/
def configPhase (env : Env) (s : St) : Except (Nat × St) St := do
  let (who_lsm6, s) ← read8 env ADDR_LSM6 REG_WHO_AM_I_LSM6 s
  let (who_lis3, s) ← read8 env ADDR_LIS3 REG_WHO_AM_I_LIS3 s
  let s : St :=
    { s with out := s.out ++ [whoLineLSM6 who_lsm6, whoLineLIS3 who_lis3] }
  let s ← write8 env ADDR_LSM6 REG_CTRL1_XL 0x20 s
  let s ← write8 env ADDR_LSM6 REG_CTRL2_G 0x24 s
  let s ← write8 env ADDR_LIS3 REG_CTRL_REG1 0x6C s
  let s ← write8 env ADDR_LIS3 REG_CTRL_REG2 0x00 s
  let s ← write8 env ADDR_LIS3 REG_CTRL_REG3 0x00 s
  pure { s with out := s.out ++ [msgConfigured, msgPressCtrlC, msgHeader] }

/-- One iteration of the sample loop (code.cpp:125-147): nine little-endian
word reads (gyro X/Y/Z, accel X/Y/Z, mag X/Y/Z), then the data line; the
`+ 2` and `+ 4` axis offsets go through the `uint8_t` cast, hence mod 256.
The trailing `usleep` only blocks and is not observable here. -/
def sampleIter (env : Env) (s : St) : Except (Nat × St) St := do
  let (gx, s) ← read16_le env ADDR_LSM6 REG_OUTX_L_G s
  let (gy, s) ← read16_le env ADDR_LSM6 ((REG_OUTX_L_G + 2) % 256) s
  let (gz, s) ← read16_le env ADDR_LSM6 ((REG_OUTX_L_G + 4) % 256) s
  let (ax, s) ← read16_le env ADDR_LSM6 REG_OUTX_L_XL s
  let (ay, s) ← read16_le env ADDR_LSM6 ((REG_OUTX_L_XL + 2) % 256) s
  let (az, s) ← read16_le env ADDR_LSM6 ((REG_OUTX_L_XL + 4) % 256) s
  let (mx, s) ← read16_le env ADDR_LIS3 REG_OUT_X_L s
  let (my, s) ← read16_le env ADDR_LIS3 ((REG_OUT_X_L + 2) % 256) s
  let (mz, s) ← read16_le env ADDR_LIS3 ((REG_OUT_X_L + 4) % 256) s
  pure { s with out := s.out ++ [dataLine gx gy gz ax ay az mx my mz] }

/-- The `while (true)` loop, with fuel: `Except.ok` means the program is
still running after that many iterations (the loop itself never exits). -/
def sampleLoop (env : Env) : Nat → St → Except (Nat × St) St
  | 0, s => Except.ok s
  | Nat.succ n, s => do
      let s1 ← sampleIter env s
      sampleLoop env n s1

/-- `main` (code.cpp:59-151): open the bus (exit 1 on failure before any
transaction), run the configuration phase, then the sample loop. -/
def progMain (env : Env) (fuel : Nat) : Except (Nat × St) St :=
  if env.openOk then do
    let s ← configPhase env initSt
    sampleLoop env fuel s
  else Except.error (1, { initSt with err := [msgOpenFail env] })

/-! ### Derived descriptions of the traces a run produces -/

/-- The three bus events of one successful `read8` of register `r` on
device `a`, when it is the `k`-th `read` call of the run. -/
def byteReadBlock (env : Env) (a r k : Nat) : List Ev :=
  [Ev.select a true, Ev.wr [r] 1, Ev.rd 1 ((env.readRes k).2 % 256)]

/-- The six bus events of one successful `read16_le`: low byte at `r`,
high byte at `(r + 1) % 256` (the `uint8_t` cast wrap). -/
def wordReadEvents (env : Env) (a r k : Nat) : List Ev :=
  byteReadBlock env a r k ++ byteReadBlock env a ((r + 1) % 256) (k + 1)

/-- The two bus events of one successful `write8` of `v` to register `r`. -/
def regWriteEvents (a r v : Nat) : List Ev :=
  [Ev.select a true, Ev.wr [r, v] 2]

/-- The state after one successful `read8`. -/
def afterRead8 (env : Env) (a r : Nat) (s : St) : St :=
  { s with nIoctl := s.nIoctl + 1, nWrite := s.nWrite + 1, nRead := s.nRead + 1,
           trace := s.trace ++ byteReadBlock env a r s.nRead }

/-- The state after one successful `write8`. -/
def afterWrite8 (a r v : Nat) (s : St) : St :=
  { s with nIoctl := s.nIoctl + 1, nWrite := s.nWrite + 1,
           trace := s.trace ++ regWriteEvents a r v }

/-- The byte the `k`-th `read` call stores into its `uint8_t` buffer. -/
def envByte (env : Env) (k : Nat) : Nat := (env.readRes k).2 % 256

/-- The signed 16-bit word assembled from the `k`-th and `(k+1)`-th bytes. -/
def envWord (env : Env) (k : Nat) : Int :=
  toSigned16 (Nat.lor (envByte env k) (Nat.shiftLeft (envByte env (k + 1)) 8))

/-- Number of single-byte `read` transactions in a trace. -/
def countRd : List Ev → Nat
  | [] => 0
  | Ev.rd _ _ :: t => countRd t + 1
  | _ :: t => countRd t

/-- The register-address payloads of the `write` transactions of a trace. -/
def regWrites : List Ev → List (List Nat)
  | [] => []
  | Ev.wr bs _ :: t => bs :: regWrites t
  | _ :: t => regWrites t

/-- The device address a single-byte-read block selects. -/
def blockAddr : List Ev → Nat
  | Ev.select a _ :: _ => a
  | _ => 0

/-- The eighteen single-byte read transactions of one sample-loop
iteration, as blocks of the form select-write-read, when the iteration
starts at read-call counter `k`. -/
def iterBlocks (env : Env) (k : Nat) : List (List Ev) :=
  [byteReadBlock env ADDR_LSM6 0x22 k,
   byteReadBlock env ADDR_LSM6 0x23 (k + 1),
   byteReadBlock env ADDR_LSM6 0x24 (k + 2),
   byteReadBlock env ADDR_LSM6 0x25 (k + 3),
   byteReadBlock env ADDR_LSM6 0x26 (k + 4),
   byteReadBlock env ADDR_LSM6 0x27 (k + 5),
   byteReadBlock env ADDR_LSM6 0x28 (k + 6),
   byteReadBlock env ADDR_LSM6 0x29 (k + 7),
   byteReadBlock env ADDR_LSM6 0x2A (k + 8),
   byteReadBlock env ADDR_LSM6 0x2B (k + 9),
   byteReadBlock env ADDR_LSM6 0x2C (k + 10),
   byteReadBlock env ADDR_LSM6 0x2D (k + 11),
   byteReadBlock env ADDR_LIS3 0x28 (k + 12),
   byteReadBlock env ADDR_LIS3 0x29 (k + 13),
   byteReadBlock env ADDR_LIS3 0x2A (k + 14),
   byteReadBlock env ADDR_LIS3 0x2B (k + 15),
   byteReadBlock env ADDR_LIS3 0x2C (k + 16),
   byteReadBlock env ADDR_LIS3 0x2D (k + 17)]

/-- The data line printed by the iteration starting at read counter `k`. -/
def iterLine (env : Env) (k : Nat) : String :=
  dataLine (envWord env k) (envWord env (k + 2)) (envWord env (k + 4))
    (envWord env (k + 6)) (envWord env (k + 8)) (envWord env (k + 10))
    (envWord env (k + 12)) (envWord env (k + 14)) (envWord env (k + 16))

/-- The state after one successful sample-loop iteration. -/
def afterIter (env : Env) (s : St) : St :=
  { s with nIoctl := s.nIoctl + 18, nWrite := s.nWrite + 18, nRead := s.nRead + 18,
           trace := s.trace ++ (iterBlocks env s.nRead).flatten,
           out := s.out ++ [iterLine env s.nRead] }

/-! ### Behaviour of the primitives on a reliable environment -/

@[simp] theorem exceptOkBind {ε α β : Type} (a : α) (f : α → Except ε β) :
    ((Except.ok a : Except ε α) >>= f) = f a := rfl

@[simp] theorem exceptErrorBind {ε α β : Type} (e : ε) (f : α → Except ε β) :
    ((Except.error e : Except ε α) >>= f) = Except.error e := rfl

theorem set_slave_ok {env : Env} {s : St} (hk : env.ioctlOk s.nIoctl = true)
    (addr : Nat) :
    i2c_set_slave env addr s =
      Except.ok { s with nIoctl := s.nIoctl + 1,
                         trace := s.trace ++ [Ev.select addr true] } := by
  simp [i2c_set_slave, hk]

theorem set_slave_fail {env : Env} {s : St} (hk : env.ioctlOk s.nIoctl = false)
    (addr : Nat) :
    i2c_set_slave env addr s =
      Except.error (1,
        { s with nIoctl := s.nIoctl + 1,
                 trace := s.trace ++ [Ev.select addr false],
                 err := s.err ++ [msgSetSlaveFail env addr] }) := by
  simp [i2c_set_slave, hk]

theorem read8_ok {env : Env} {s : St} (h1 : env.ioctlOk s.nIoctl = true)
    (h2 : env.writeRes s.nWrite 1 = 1) (h3 : (env.readRes s.nRead).1 = 1)
    (addr reg : Nat) :
    read8 env addr reg s =
      Except.ok (envByte env s.nRead, afterRead8 env addr reg s) := by
  simp [read8, set_slave_ok h1, h2, h3, afterRead8, byteReadBlock, envByte]

theorem read8_write_fail {env : Env} {s : St} (h1 : env.ioctlOk s.nIoctl = true)
    (h2 : env.writeRes s.nWrite 1 ≠ 1) (addr reg : Nat) :
    read8 env addr reg s =
      Except.error (1,
        { s with nIoctl := s.nIoctl + 1, nWrite := s.nWrite + 1,
                 trace := s.trace ++
                   [Ev.select addr true, Ev.wr [reg] (env.writeRes s.nWrite 1)],
                 err := s.err ++ [msgWriteRegFail env] }) := by
  simp [read8, set_slave_ok h1, h2]

theorem read8_read_fail {env : Env} {s : St} (h1 : env.ioctlOk s.nIoctl = true)
    (h2 : env.writeRes s.nWrite 1 = 1) (h3 : (env.readRes s.nRead).1 ≠ 1)
    (addr reg : Nat) :
    read8 env addr reg s =
      Except.error (1,
        { s with nIoctl := s.nIoctl + 1, nWrite := s.nWrite + 1,
                 nRead := s.nRead + 1,
                 trace := s.trace ++
                   [Ev.select addr true, Ev.wr [reg] 1,
                    Ev.rd (env.readRes s.nRead).1 (envByte env s.nRead)],
                 err := s.err ++ [msgReadFail env] }) := by
  simp [read8, set_slave_ok h1, h2, h3, envByte]

theorem write8_ok {env : Env} {s : St} (h1 : env.ioctlOk s.nIoctl = true)
    (h2 : env.writeRes s.nWrite 2 = 2) (addr reg val : Nat) :
    write8 env addr reg val s = Except.ok (afterWrite8 addr reg val s) := by
  simp [write8, set_slave_ok h1, h2, afterWrite8, regWriteEvents]

theorem write8_fail {env : Env} {s : St} (h1 : env.ioctlOk s.nIoctl = true)
    (h2 : env.writeRes s.nWrite 2 ≠ 2) (addr reg val : Nat) :
    write8 env addr reg val s =
      Except.error (1,
        { s with nIoctl := s.nIoctl + 1, nWrite := s.nWrite + 1,
                 trace := s.trace ++
                   [Ev.select addr true, Ev.wr [reg, val] (env.writeRes s.nWrite 2)],
                 err := s.err ++ [msgWriteRegValFail env] }) := by
  simp [write8, set_slave_ok h1, h2]

theorem read8_reliable {env : Env} (h : env.reliable) (addr reg : Nat) (s : St) :
    read8 env addr reg s =
      Except.ok (envByte env s.nRead, afterRead8 env addr reg s) :=
  read8_ok (h.2.1 _) (h.2.2.1 _ _) (h.2.2.2 _) addr reg

theorem write8_reliable {env : Env} (h : env.reliable) (addr reg val : Nat) (s : St) :
    write8 env addr reg val s = Except.ok (afterWrite8 addr reg val s) :=
  write8_ok (h.2.1 _) (h.2.2.1 _ _) addr reg val

theorem read16_le_reliable {env : Env} (h : env.reliable) (addr reg : Nat) (s : St) :
    read16_le env addr reg s =
      Except.ok (envWord env s.nRead,
        afterRead8 env addr ((reg + 1) % 256) (afterRead8 env addr reg s)) := by
  simp [read16_le, read8_reliable h, envWord, afterRead8, envByte]

theorem sampleIter_reliable {env : Env} (h : env.reliable) (s : St) :
    sampleIter env s = Except.ok (afterIter env s) := by
  simp [sampleIter, read16_le_reliable h, afterIter, afterRead8, iterBlocks,
    byteReadBlock, iterLine, envWord, envByte, ADDR_LSM6, ADDR_LIS3,
    REG_OUTX_L_G, REG_OUTX_L_XL, REG_OUT_X_L]

/-- The bus trace a failure-free configuration phase leaves behind:
the two identify reads, then exactly the five documented register writes
`(0x10, 0x20)`, `(0x11, 0x24)` to the gyro/accel device and `(0x20, 0x6C)`,
`(0x21, 0x00)`, `(0x22, 0x00)` to the magnetometer, in this order. -/
def configTrace (env : Env) : List Ev :=
  byteReadBlock env ADDR_LSM6 REG_WHO_AM_I_LSM6 0 ++
    byteReadBlock env ADDR_LIS3 REG_WHO_AM_I_LIS3 1 ++
    regWriteEvents ADDR_LSM6 REG_CTRL1_XL 0x20 ++
    regWriteEvents ADDR_LSM6 REG_CTRL2_G 0x24 ++
    regWriteEvents ADDR_LIS3 REG_CTRL_REG1 0x6C ++
    regWriteEvents ADDR_LIS3 REG_CTRL_REG2 0x00 ++
    regWriteEvents ADDR_LIS3 REG_CTRL_REG3 0x00

/-- The state after a failure-free configuration phase. -/
def afterConfig (env : Env) : St :=
  { nIoctl := 7, nWrite := 7, nRead := 2, trace := configTrace env,
    out := [whoLineLSM6 (envByte env 0), whoLineLIS3 (envByte env 1),
            msgConfigured, msgPressCtrlC, msgHeader],
    err := [] }

theorem configPhase_reliable {env : Env} (h : env.reliable) :
    configPhase env initSt = Except.ok (afterConfig env) := by
  simp [configPhase, read8_reliable h, write8_reliable h, afterConfig,
    afterRead8, afterWrite8, initSt, configTrace, byteReadBlock, regWriteEvents,
    envByte]

theorem sampleLoop_reliable {env : Env} (h : env.reliable) :
    ∀ (fuel : Nat) (s : St), ∃ s', sampleLoop env fuel s = Except.ok s' := by
  intro fuel
  induction fuel with
  | zero => exact fun s => ⟨s, rfl⟩
  | succ n ih =>
    intro s
    obtain ⟨s', hs'⟩ := ih (afterIter env s)
    exact ⟨s', by simp [sampleLoop, sampleIter_reliable h, hs']⟩

theorem progMain_reliable {env : Env} (h : env.reliable) (fuel : Nat) :
    ∃ s, progMain env fuel = Except.ok s := by
  obtain ⟨s', hs'⟩ := sampleLoop_reliable h fuel (afterConfig env)
  exact ⟨s', by simp [progMain, h.1, configPhase_reliable h, hs']⟩

/-! ### Every in-process exit carries status 1 -/

theorem exceptBindError {ε α β : Type} {e : Except ε α} {f : α → Except ε β}
    {r : ε} (h : (e >>= f) = Except.error r) :
    e = Except.error r ∨ ∃ a, e = Except.ok a ∧ f a = Except.error r := by
  cases e with
  | error e0 => simp_all
  | ok a => exact Or.inr ⟨a, rfl, by simpa using h⟩

theorem set_slave_error {env : Env} {addr : Nat} {s : St} {c : Nat} {t : St}
    (h : i2c_set_slave env addr s = Except.error (c, t)) : c = 1 := by
  by_cases hk : env.ioctlOk s.nIoctl
  · rw [set_slave_ok hk] at h; simp at h
  · rw [set_slave_fail (Bool.not_eq_true _ ▸ hk)] at h
    simp only [Except.error.injEq, Prod.mk.injEq] at h
    exact h.1.symm

theorem read8_error {env : Env} {addr reg : Nat} {s : St} {c : Nat} {t : St}
    (h : read8 env addr reg s = Except.error (c, t)) : c = 1 := by
  by_cases h1 : env.ioctlOk s.nIoctl
  · by_cases h2 : env.writeRes s.nWrite 1 = 1
    · by_cases h3 : (env.readRes s.nRead).1 = 1
      · rw [read8_ok h1 h2 h3] at h; simp at h
      · rw [read8_read_fail h1 h2 h3] at h
        simp only [Except.error.injEq, Prod.mk.injEq] at h
        exact h.1.symm
    · rw [read8_write_fail h1 h2] at h
      simp only [Except.error.injEq, Prod.mk.injEq] at h
      exact h.1.symm
  · rw [read8] at h
    rw [set_slave_fail (Bool.not_eq_true _ ▸ h1)] at h
    simp only [Except.error.injEq, Prod.mk.injEq] at h
    exact h.1.symm

theorem write8_error {env : Env} {addr reg val : Nat} {s : St} {c : Nat} {t : St}
    (h : write8 env addr reg val s = Except.error (c, t)) : c = 1 := by
  by_cases h1 : env.ioctlOk s.nIoctl
  · by_cases h2 : env.writeRes s.nWrite 2 = 2
    · rw [write8_ok h1 h2] at h; simp at h
    · rw [write8_fail h1 h2] at h
      simp only [Except.error.injEq, Prod.mk.injEq] at h
      exact h.1.symm
  · rw [write8] at h
    rw [set_slave_fail (Bool.not_eq_true _ ▸ h1)] at h
    simp only [Except.error.injEq, Prod.mk.injEq] at h
    exact h.1.symm

theorem read16_le_error {env : Env} {addr reg : Nat} {s : St} {c : Nat} {t : St}
    (h : read16_le env addr reg s = Except.error (c, t)) : c = 1 := by
  rw [read16_le] at h
  cases hr : read8 env addr reg s with
  | error e =>
    obtain ⟨c', t'⟩ := e
    rw [hr] at h
    simp only [Except.error.injEq, Prod.mk.injEq] at h
    exact h.1 ▸ read8_error hr
  | ok p =>
    obtain ⟨lo, s1⟩ := p
    rw [hr] at h
    try dsimp only at h
    cases hr2 : read8 env addr ((reg + 1) % 256) s1 with
    | error e =>
      obtain ⟨c', t'⟩ := e
      rw [hr2] at h
      simp only [Except.error.injEq, Prod.mk.injEq] at h
      exact h.1 ▸ read8_error hr2
    | ok p2 =>
      obtain ⟨hi, s2⟩ := p2
      rw [hr2] at h
      simp at h

theorem sampleIter_error {env : Env} {s : St} {c : Nat} {t : St}
    (h : sampleIter env s = Except.error (c, t)) : c = 1 := by
  rw [sampleIter] at h
  rcases exceptBindError h with h | ⟨⟨gx, s1⟩, _, h⟩
  · exact read16_le_error h
  try dsimp only at h
  rcases exceptBindError h with h | ⟨⟨gy, s2⟩, _, h⟩
  · exact read16_le_error h
  try dsimp only at h
  rcases exceptBindError h with h | ⟨⟨gz, s3⟩, _, h⟩
  · exact read16_le_error h
  try dsimp only at h
  rcases exceptBindError h with h | ⟨⟨ax, s4⟩, _, h⟩
  · exact read16_le_error h
  try dsimp only at h
  rcases exceptBindError h with h | ⟨⟨ay, s5⟩, _, h⟩
  · exact read16_le_error h
  try dsimp only at h
  rcases exceptBindError h with h | ⟨⟨az, s6⟩, _, h⟩
  · exact read16_le_error h
  try dsimp only at h
  rcases exceptBindError h with h | ⟨⟨mx, s7⟩, _, h⟩
  · exact read16_le_error h
  try dsimp only at h
  rcases exceptBindError h with h | ⟨⟨my, s8⟩, _, h⟩
  · exact read16_le_error h
  try dsimp only at h
  rcases exceptBindError h with h | ⟨⟨mz, s9⟩, _, h⟩
  · exact read16_le_error h
  try dsimp only at h
  exact absurd h (by simp [pure, Except.pure])

theorem sampleLoop_error {env : Env} {c : Nat} {t : St} :
    ∀ {fuel : Nat} {s : St},
      sampleLoop env fuel s = Except.error (c, t) → c = 1 := by
  intro fuel
  induction fuel with
  | zero => intro s h; exact absurd h (by simp [sampleLoop])
  | succ n ih =>
    intro s h
    rw [sampleLoop] at h
    rcases exceptBindError h with h | ⟨s1, _, h⟩
    · exact sampleIter_error h
    · exact ih h

theorem configPhase_error {env : Env} {s : St} {c : Nat} {t : St}
    (h : configPhase env s = Except.error (c, t)) : c = 1 := by
  rw [configPhase] at h
  rcases exceptBindError h with h | ⟨⟨w1, s1⟩, _, h⟩
  · exact read8_error h
  try dsimp only at h
  rcases exceptBindError h with h | ⟨⟨w2, s2⟩, _, h⟩
  · exact read8_error h
  try dsimp only at h
  rcases exceptBindError h with h | ⟨s3, _, h⟩
  · exact write8_error h
  try dsimp only at h
  rcases exceptBindError h with h | ⟨s4, _, h⟩
  · exact write8_error h
  try dsimp only at h
  rcases exceptBindError h with h | ⟨s5, _, h⟩
  · exact write8_error h
  try dsimp only at h
  rcases exceptBindError h with h | ⟨s6, _, h⟩
  · exact write8_error h
  try dsimp only at h
  rcases exceptBindError h with h | ⟨s7, _, h⟩
  · exact write8_error h
  try dsimp only at h
  exact absurd h (by simp [pure, Except.pure])

theorem progMain_error {env : Env} {fuel : Nat} {c : Nat} {t : St}
    (h : progMain env fuel = Except.error (c, t)) : c = 1 := by
  rw [progMain] at h
  by_cases ho : env.openOk
  · rw [if_pos ho] at h
    rcases exceptBindError h with h | ⟨s1, _, h⟩
    · exact configPhase_error h
    · exact sampleLoop_error h
  · rw [if_neg ho] at h
    simp only [Except.error.injEq, Prod.mk.injEq] at h
    exact h.1.symm

/-! ### Concrete environments used to exercise the theorems -/

/-- A fully successful environment in which the `k`-th `read` call stores
byte `b k`. -/
def envOf (b : Nat → Nat) : Env :=
  { openOk := true, ioctlOk := fun _ => true, writeRes := fun _ n => (n : Int),
    readRes := fun k => (1, b k), errStr := "" }

theorem envOf_reliable (b : Nat → Nat) : (envOf b).reliable :=
  ⟨rfl, fun _ => rfl, fun _ _ => rfl, fun _ => rfl⟩

/-- The signed value carried by an `Except.ok` result of `read16_le`. -/
def valOf : Except (Nat × St) (Int × St) → Option Int
  | Except.ok (v, _) => some v
  | Except.error _ => none

theorem envByte_lt (env : Env) (k : Nat) : envByte env k < 256 :=
  Nat.mod_lt _ (by norm_num)

theorem lor_low_high (lo hi : Nat) (h : lo < 256) :
    Nat.lor lo (Nat.shiftLeft hi 8) = lo + 256 * hi := by
  have h2 := Nat.mul_add_lt_is_or (show lo < 2 ^ 8 from h) hi
  have e1 : Nat.lor lo (Nat.shiftLeft hi 8) = lo ||| hi <<< 8 := rfl
  rw [e1, Nat.shiftLeft_eq, Nat.lor_comm, Nat.mul_comm, ← h2]
  omega

theorem envWord_eq (env : Env) (k : Nat) :
    envWord env k = toSigned16 (envByte env k + 256 * envByte env (k + 1)) := by
  rw [envWord, lor_low_high _ _ (envByte_lt env k)]

/-! ### Claim theorems -/

/-- C1: `read16_le` combines the byte of the first single-byte read as the
low byte and the byte of the second read (issued at `low_register + 1`) as
the high byte, little-endian, and reinterprets the 16-bit result as signed
two's-complement; low byte `0x34` with high byte `0x12` yields `4660`, and
low bytes `0xFF`/`0xFF` yield `-1`. -/
theorem read16_le_little_endian_signed :
    (∀ (env : Env) (addr reg : Nat) (s : St), env.reliable →
        ∃ s', read16_le env addr reg s =
          Except.ok
            (toSigned16 (envByte env s.nRead + 256 * envByte env (s.nRead + 1)),
             s'))
    ∧ valOf (read16_le (envOf fun k => if k = 0 then 0x34 else 0x12)
        ADDR_LSM6 REG_OUTX_L_XL initSt) = some 4660
    ∧ valOf (read16_le (envOf fun _ => 0xFF)
        ADDR_LSM6 REG_OUTX_L_XL initSt) = some (-1) := by
  refine ⟨fun env addr reg s h => ?_, by decide, by decide⟩
  exact ⟨_, by rw [read16_le_reliable h, envWord_eq]⟩

/-- Witness for C1 at a concrete environment delivering bytes
`0x34` then `0x12`. -/
theorem read16_le_little_endian_signed_witness :
    ∃ s', read16_le (envOf fun k => if k = 0 then 0x34 else 0x12)
        ADDR_LSM6 REG_OUTX_L_XL initSt =
      Except.ok
        (toSigned16
          (envByte (envOf fun k => if k = 0 then 0x34 else 0x12) initSt.nRead +
            256 * envByte (envOf fun k => if k = 0 then 0x34 else 0x12)
              (initSt.nRead + 1)), s') :=
  read16_le_little_endian_signed.1 _ ADDR_LSM6 REG_OUTX_L_XL initSt
    ⟨rfl, fun _ => rfl, fun _ _ => rfl, fun _ => rfl⟩

/-- C2: in every run in which no transaction fails, the configuration
phase sends exactly the documented register address/value pairs, in the
order: the two device-identify reads, then accel config `(0x10, 0x20)`,
gyro config `(0x11, 0x24)` on the gyro/accel device, then mag config
`(0x20, 0x6C)`, `(0x21, 0x00)`, `(0x22, 0x00)` on the magnetometer. -/
theorem config_writes_documented (env : Env) (h : env.reliable) :
    ∃ s, configPhase env initSt = Except.ok s ∧
      s.trace = byteReadBlock env ADDR_LSM6 REG_WHO_AM_I_LSM6 0 ++
        byteReadBlock env ADDR_LIS3 REG_WHO_AM_I_LIS3 1 ++
        regWriteEvents ADDR_LSM6 REG_CTRL1_XL 0x20 ++
        regWriteEvents ADDR_LSM6 REG_CTRL2_G 0x24 ++
        regWriteEvents ADDR_LIS3 REG_CTRL_REG1 0x6C ++
        regWriteEvents ADDR_LIS3 REG_CTRL_REG2 0x00 ++
        regWriteEvents ADDR_LIS3 REG_CTRL_REG3 0x00 ∧
      regWrites s.trace = [[REG_WHO_AM_I_LSM6], [REG_WHO_AM_I_LIS3],
        [0x10, 0x20], [0x11, 0x24], [0x20, 0x6C], [0x21, 0x00], [0x22, 0x00]] := by
  refine ⟨afterConfig env, configPhase_reliable h, ?_, ?_⟩
  · simp [afterConfig, configTrace]
  · simp [afterConfig, configTrace, byteReadBlock, regWriteEvents, regWrites,
      REG_WHO_AM_I_LSM6, REG_WHO_AM_I_LIS3, REG_CTRL1_XL, REG_CTRL2_G,
      REG_CTRL_REG1, REG_CTRL_REG2, REG_CTRL_REG3]

/-- Witness for C2 at a concrete all-successful environment. -/
theorem config_writes_documented_witness :
    ∃ s, configPhase (envOf fun _ => 0) initSt = Except.ok s ∧
      s.trace = byteReadBlock (envOf fun _ => 0) ADDR_LSM6 REG_WHO_AM_I_LSM6 0 ++
        byteReadBlock (envOf fun _ => 0) ADDR_LIS3 REG_WHO_AM_I_LIS3 1 ++
        regWriteEvents ADDR_LSM6 REG_CTRL1_XL 0x20 ++
        regWriteEvents ADDR_LSM6 REG_CTRL2_G 0x24 ++
        regWriteEvents ADDR_LIS3 REG_CTRL_REG1 0x6C ++
        regWriteEvents ADDR_LIS3 REG_CTRL_REG2 0x00 ++
        regWriteEvents ADDR_LIS3 REG_CTRL_REG3 0x00 ∧
      regWrites s.trace = [[REG_WHO_AM_I_LSM6], [REG_WHO_AM_I_LIS3],
        [0x10, 0x20], [0x11, 0x24], [0x20, 0x6C], [0x21, 0x00], [0x22, 0x00]] :=
  config_writes_documented (envOf fun _ => 0)
    ⟨rfl, fun _ => rfl, fun _ _ => rfl, fun _ => rfl⟩

/-- C3: after configuration, every iteration of the sample loop (one
printed data line) issues exactly 18 single-byte register-read
transactions, and each one is immediately preceded by a device-select for
the address of the device being read: the trace grows by 18 blocks of the
form select/write-register-address/read-byte, the first 12 selecting the
gyro/accel address and the last 6 the magnetometer address. -/
theorem sample_iteration_transactions (env : Env) (s : St) (h : env.reliable) :
    ∃ s', sampleIter env s = Except.ok s' ∧
      s'.trace = s.trace ++ (iterBlocks env s.nRead).flatten ∧
      s'.out = s.out ++ [iterLine env s.nRead] ∧
      (iterBlocks env s.nRead).length = 18 ∧
      countRd (iterBlocks env s.nRead).flatten = 18 ∧
      (∀ b ∈ iterBlocks env s.nRead, ∃ r v,
          b = [Ev.select (blockAddr b) true, Ev.wr [r] 1, Ev.rd 1 v]) ∧
      (iterBlocks env s.nRead).map blockAddr =
        List.replicate 12 ADDR_LSM6 ++ List.replicate 6 ADDR_LIS3 := by
  refine ⟨afterIter env s, sampleIter_reliable h s, rfl, rfl, rfl, ?_, ?_, ?_⟩
  · simp [iterBlocks, byteReadBlock, countRd]
  · intro b hb
    simp only [iterBlocks, List.mem_cons, List.not_mem_nil, or_false] at hb
    rcases hb with rfl | rfl | rfl | rfl | rfl | rfl | rfl | rfl | rfl | rfl |
      rfl | rfl | rfl | rfl | rfl | rfl | rfl | rfl <;>
      exact ⟨_, _, rfl⟩
  · simp [iterBlocks, byteReadBlock, blockAddr, List.replicate]

/-- Witness for C3 at a concrete all-successful environment and the
post-configuration state. -/
theorem sample_iteration_transactions_witness :
    ∃ s', sampleIter (envOf fun _ => 1) (afterConfig (envOf fun _ => 1)) =
        Except.ok s' ∧
      s'.trace = (afterConfig (envOf fun _ => 1)).trace ++
        (iterBlocks (envOf fun _ => 1) (afterConfig (envOf fun _ => 1)).nRead).flatten ∧
      s'.out = (afterConfig (envOf fun _ => 1)).out ++
        [iterLine (envOf fun _ => 1) (afterConfig (envOf fun _ => 1)).nRead] ∧
      (iterBlocks (envOf fun _ => 1) (afterConfig (envOf fun _ => 1)).nRead).length = 18 ∧
      countRd (iterBlocks (envOf fun _ => 1) (afterConfig (envOf fun _ => 1)).nRead).flatten = 18 ∧
      (∀ b ∈ iterBlocks (envOf fun _ => 1) (afterConfig (envOf fun _ => 1)).nRead, ∃ r v,
          b = [Ev.select (blockAddr b) true, Ev.wr [r] 1, Ev.rd 1 v]) ∧
      (iterBlocks (envOf fun _ => 1) (afterConfig (envOf fun _ => 1)).nRead).map blockAddr =
        List.replicate 12 ADDR_LSM6 ++ List.replicate 6 ADDR_LIS3 :=
  sample_iteration_transactions (envOf fun _ => 1) (afterConfig (envOf fun _ => 1))
    ⟨rfl, fun _ => rfl, fun _ _ => rfl, fun _ => rfl⟩

/-- C4: each sample-loop iteration reads, in this order, three
little-endian word pairs from the gyro/accel angular-rate registers
(`0x22`, `0x24`, `0x26`), then three from its linear-acceleration
registers (`0x28`, `0x2A`, `0x2C`), then three from the magnetometer's
output registers (`0x28`, `0x2A`, `0x2C`): nine 16-bit words per
iteration. -/
theorem sample_iteration_word_order (env : Env) (s : St) (h : env.reliable) :
    ∃ s', sampleIter env s = Except.ok s' ∧
      s'.trace = s.trace
        ++ wordReadEvents env ADDR_LSM6 REG_OUTX_L_G s.nRead
        ++ wordReadEvents env ADDR_LSM6 ((REG_OUTX_L_G + 2) % 256) (s.nRead + 2)
        ++ wordReadEvents env ADDR_LSM6 ((REG_OUTX_L_G + 4) % 256) (s.nRead + 4)
        ++ wordReadEvents env ADDR_LSM6 REG_OUTX_L_XL (s.nRead + 6)
        ++ wordReadEvents env ADDR_LSM6 ((REG_OUTX_L_XL + 2) % 256) (s.nRead + 8)
        ++ wordReadEvents env ADDR_LSM6 ((REG_OUTX_L_XL + 4) % 256) (s.nRead + 10)
        ++ wordReadEvents env ADDR_LIS3 REG_OUT_X_L (s.nRead + 12)
        ++ wordReadEvents env ADDR_LIS3 ((REG_OUT_X_L + 2) % 256) (s.nRead + 14)
        ++ wordReadEvents env ADDR_LIS3 ((REG_OUT_X_L + 4) % 256) (s.nRead + 16) := by
  refine ⟨afterIter env s, sampleIter_reliable h s, ?_⟩
  simp [afterIter, iterBlocks, wordReadEvents, byteReadBlock,
    REG_OUTX_L_G, REG_OUTX_L_XL, REG_OUT_X_L, ADDR_LSM6, ADDR_LIS3]

/-- Witness for C4 at a concrete all-successful environment. -/
theorem sample_iteration_word_order_witness :
    ∃ s', sampleIter (envOf fun _ => 2) initSt = Except.ok s' ∧
      s'.trace = initSt.trace
        ++ wordReadEvents (envOf fun _ => 2) ADDR_LSM6 REG_OUTX_L_G initSt.nRead
        ++ wordReadEvents (envOf fun _ => 2) ADDR_LSM6 ((REG_OUTX_L_G + 2) % 256) (initSt.nRead + 2)
        ++ wordReadEvents (envOf fun _ => 2) ADDR_LSM6 ((REG_OUTX_L_G + 4) % 256) (initSt.nRead + 4)
        ++ wordReadEvents (envOf fun _ => 2) ADDR_LSM6 REG_OUTX_L_XL (initSt.nRead + 6)
        ++ wordReadEvents (envOf fun _ => 2) ADDR_LSM6 ((REG_OUTX_L_XL + 2) % 256) (initSt.nRead + 8)
        ++ wordReadEvents (envOf fun _ => 2) ADDR_LSM6 ((REG_OUTX_L_XL + 4) % 256) (initSt.nRead + 10)
        ++ wordReadEvents (envOf fun _ => 2) ADDR_LIS3 REG_OUT_X_L (initSt.nRead + 12)
        ++ wordReadEvents (envOf fun _ => 2) ADDR_LIS3 ((REG_OUT_X_L + 2) % 256) (initSt.nRead + 14)
        ++ wordReadEvents (envOf fun _ => 2) ADDR_LIS3 ((REG_OUT_X_L + 4) % 256) (initSt.nRead + 16) :=
  sample_iteration_word_order (envOf fun _ => 2) initSt
    ⟨rfl, fun _ => rfl, fun _ _ => rfl, fun _ => rfl⟩

/-- C5: every fallible bus operation (bus open, device select, register
write, register read) on failure prints a diagnostic naming the failing
operation together with the operating-system error description to the
error stream and terminates with status 1 (non-zero), attempting no retry
and no further transaction: the trace ends at the failing attempt. -/
theorem fatal_error_policy :
    (∀ (env : Env) (fuel : Nat), env.openOk = false →
        progMain env fuel = Except.error (1,
          { initSt with
              err := ["Failed to open /dev/i2c-1: " ++ env.errStr ++ "\n"] }))
    ∧ (∀ (env : Env) (addr : Nat) (s : St), env.ioctlOk s.nIoctl = false →
        i2c_set_slave env addr s = Except.error (1,
          { s with nIoctl := s.nIoctl + 1,
                   trace := s.trace ++ [Ev.select addr false],
                   err := s.err ++
                     ["Failed to set I2C slave 0x" ++ hexStr addr ++ ": " ++
                       env.errStr ++ "\n"] }))
    ∧ (∀ (env : Env) (addr reg : Nat) (s : St), env.ioctlOk s.nIoctl = true →
        env.writeRes s.nWrite 1 ≠ 1 →
        read8 env addr reg s = Except.error (1,
          { s with nIoctl := s.nIoctl + 1, nWrite := s.nWrite + 1,
                   trace := s.trace ++
                     [Ev.select addr true, Ev.wr [reg] (env.writeRes s.nWrite 1)],
                   err := s.err ++
                     ["I2C write(reg) failed: " ++ env.errStr ++ "\n"] }))
    ∧ (∀ (env : Env) (addr reg : Nat) (s : St), env.ioctlOk s.nIoctl = true →
        env.writeRes s.nWrite 1 = 1 → (env.readRes s.nRead).1 ≠ 1 →
        read8 env addr reg s = Except.error (1,
          { s with nIoctl := s.nIoctl + 1, nWrite := s.nWrite + 1,
                   nRead := s.nRead + 1,
                   trace := s.trace ++
                     [Ev.select addr true, Ev.wr [reg] 1,
                      Ev.rd (env.readRes s.nRead).1 (envByte env s.nRead)],
                   err := s.err ++ ["I2C read failed: " ++ env.errStr ++ "\n"] }))
    ∧ (∀ (env : Env) (addr reg val : Nat) (s : St), env.ioctlOk s.nIoctl = true →
        env.writeRes s.nWrite 2 ≠ 2 →
        write8 env addr reg val s = Except.error (1,
          { s with nIoctl := s.nIoctl + 1, nWrite := s.nWrite + 1,
                   trace := s.trace ++
                     [Ev.select addr true, Ev.wr [reg, val] (env.writeRes s.nWrite 2)],
                   err := s.err ++
                     ["I2C write(reg,val) failed: " ++ env.errStr ++ "\n"] })) := by
  refine ⟨fun env fuel ho => ?_, fun env addr s hk => ?_,
    fun env addr reg s h1 h2 => ?_, fun env addr reg s h1 h2 h3 => ?_,
    fun env addr reg val s h1 h2 => ?_⟩
  · rw [progMain, if_neg (by simp [ho])]
    rfl
  · rw [set_slave_fail hk]
    rfl
  · rw [read8_write_fail h1 h2]
    rfl
  · rw [read8_read_fail h1 h2 h3]
    rfl
  · rw [write8_fail h1 h2]
    rfl

/-- Witness for C5: a concrete environment whose device-select `ioctl`
always fails, exercised on the initial state. -/
theorem fatal_error_policy_witness :
    i2c_set_slave
        { openOk := true, ioctlOk := fun _ => false,
          writeRes := fun _ n => (n : Int), readRes := fun k => (1, k),
          errStr := "Remote I/O error" } ADDR_LSM6 initSt =
      Except.error (1,
        { initSt with nIoctl := 1,
                      trace := [Ev.select ADDR_LSM6 false],
                      err := ["Failed to set I2C slave 0x" ++ hexStr ADDR_LSM6 ++
                        ": " ++ "Remote I/O error" ++ "\n"] }) :=
  fatal_error_policy.2.1
    { openOk := true, ioctlOk := fun _ => false,
      writeRes := fun _ n => (n : Int), readRes := fun k => (1, k),
      errStr := "Remote I/O error" } ADDR_LSM6 initSt rfl

/-- C6: if opening the bus device node fails, the process terminates with
non-zero status (1) before issuing any device-select or register
operation: the final state carries an empty bus trace and zero issued
`ioctl`/`write`/`read` calls. -/
theorem open_failure_before_any_transaction (env : Env) (fuel : Nat)
    (h : env.openOk = false) :
    ∃ t, progMain env fuel = Except.error (1, t) ∧ t.trace = [] ∧
      t.nIoctl = 0 ∧ t.nWrite = 0 ∧ t.nRead = 0 := by
  refine ⟨{ initSt with err := [msgOpenFail env] }, ?_, rfl, rfl, rfl, rfl⟩
  rw [progMain, if_neg (by simp [h])]

/-- Witness for C6: a concrete environment whose `open` fails. -/
theorem open_failure_before_any_transaction_witness :
    ∃ t, progMain
        { openOk := false, ioctlOk := fun _ => true,
          writeRes := fun _ n => (n : Int), readRes := fun k => (1, k),
          errStr := "No such file or directory" } 5 =
      Except.error (1, t) ∧ t.trace = [] ∧
      t.nIoctl = 0 ∧ t.nWrite = 0 ∧ t.nRead = 0 :=
  open_failure_before_any_transaction
    { openOk := false, ioctlOk := fun _ => true,
      writeRes := fun _ n => (n : Int), readRes := fun k => (1, k),
      errStr := "No such file or directory" } 5 rfl

/-- C7: the two `WHO_AM_I` bytes are printed in lowercase hexadecimal
exactly as read and never compared against expected constants: for any
bytes the two identify reads return, the run proceeds to the identical
configuration sequence (the trace after the six identify events is a
fixed event list not depending on those bytes), and `0x69`/`0x3D` print
as `69`/`3d`. -/
theorem who_am_i_printed_not_validated (env : Env) (h : env.reliable) :
    (∃ s, configPhase env initSt = Except.ok s ∧
      s.out = ["LSM6DS33 WHO_AM_I = 0x" ++ hexStr (envByte env 0) ++ "\n",
               "LIS3MDL  WHO_AM_I = 0x" ++ hexStr (envByte env 1) ++ "\n\n",
               msgConfigured, msgPressCtrlC, msgHeader] ∧
      List.drop 6 s.trace =
        [Ev.select ADDR_LSM6 true, Ev.wr [0x10, 0x20] 2,
         Ev.select ADDR_LSM6 true, Ev.wr [0x11, 0x24] 2,
         Ev.select ADDR_LIS3 true, Ev.wr [0x20, 0x6C] 2,
         Ev.select ADDR_LIS3 true, Ev.wr [0x21, 0x00] 2,
         Ev.select ADDR_LIS3 true, Ev.wr [0x22, 0x00] 2]) ∧
      hexStr 0x69 = "69" ∧ hexStr 0x3D = "3d" := by
  refine ⟨⟨afterConfig env, configPhase_reliable h, ?_, ?_⟩, by decide, by decide⟩
  · simp [afterConfig, whoLineLSM6, whoLineLIS3]
  · simp [afterConfig, configTrace, byteReadBlock, regWriteEvents,
      REG_CTRL1_XL, REG_CTRL2_G, REG_CTRL_REG1, REG_CTRL_REG2, REG_CTRL_REG3]

/-- Witness for C7 at a concrete environment returning `0x69` and `0x3D`
from the two identify reads. -/
theorem who_am_i_printed_not_validated_witness :
    (∃ s, configPhase (envOf fun k => if k = 0 then 0x69 else 0x3D) initSt =
        Except.ok s ∧
      s.out = ["LSM6DS33 WHO_AM_I = 0x" ++
          hexStr (envByte (envOf fun k => if k = 0 then 0x69 else 0x3D) 0) ++ "\n",
        "LIS3MDL  WHO_AM_I = 0x" ++
          hexStr (envByte (envOf fun k => if k = 0 then 0x69 else 0x3D) 1) ++ "\n\n",
        msgConfigured, msgPressCtrlC, msgHeader] ∧
      List.drop 6 s.trace =
        [Ev.select ADDR_LSM6 true, Ev.wr [0x10, 0x20] 2,
         Ev.select ADDR_LSM6 true, Ev.wr [0x11, 0x24] 2,
         Ev.select ADDR_LIS3 true, Ev.wr [0x20, 0x6C] 2,
         Ev.select ADDR_LIS3 true, Ev.wr [0x21, 0x00] 2,
         Ev.select ADDR_LIS3 true, Ev.wr [0x22, 0x00] 2]) ∧
      hexStr 0x69 = "69" ∧ hexStr 0x3D = "3d" :=
  who_am_i_printed_not_validated (envOf fun k => if k = 0 then 0x69 else 0x3D)
    ⟨rfl, fun _ => rfl, fun _ _ => rfl, fun _ => rfl⟩

/-- C8: the sample loop never terminates in-process.  In every run in
which no bus transaction fails the program is still running after any
number of loop iterations (it never returns from the loop on its own),
and every in-process exit carries a non-zero status: exit status 0 can
only arise from external termination. -/
theorem loop_never_exits_in_process :
    (∀ (env : Env) (fuel : Nat), env.reliable →
        ∃ s, progMain env fuel = Except.ok s)
    ∧ (∀ (env : Env) (fuel : Nat) (c : Nat) (t : St),
        progMain env fuel = Except.error (c, t) → c ≠ 0) :=
  ⟨fun _ fuel h => progMain_reliable h fuel,
   fun _ _ _ _ h => by rw [progMain_error h]; exact one_ne_zero⟩

/-- Witness for C8: on a concrete all-successful environment the program
is still running after three iterations. -/
theorem loop_never_exits_in_process_witness :
    ∃ s, progMain (envOf fun _ => 7) 3 = Except.ok s :=
  loop_never_exits_in_process.1 (envOf fun _ => 7) 3
    ⟨rfl, fun _ => rfl, fun _ _ => rfl, fun _ => rfl⟩

/-- C9: in `read16_le` the high-byte register address is
`(low_register + 1) mod 256` because of the `uint8_t` cast, so for
`low_register = 0xFF` the high byte is read from register `0x00`; the
`+ 2` / `+ 4` per-axis offsets of the sample loop wrap modulo 256 the
same way (all landing below 256, at `0x24`, `0x26`, `0x2A`, `0x2C`). -/
theorem register_addresses_wrap_mod256 :
    (∀ (env : Env) (addr reg : Nat) (s : St), env.reliable →
        ∃ v s', read16_le env addr reg s = Except.ok (v, s') ∧
          s'.trace = s.trace ++ wordReadEvents env addr reg s.nRead)
    ∧ (∀ (env : Env) (a r k : Nat),
        regWrites (wordReadEvents env a r k) = [[r], [(r + 1) % 256]])
    ∧ regWrites (wordReadEvents (envOf fun _ => 0) ADDR_LSM6 0xFF 0) =
        [[0xFF], [0x00]]
    ∧ [(REG_OUTX_L_G + 2) % 256, (REG_OUTX_L_G + 4) % 256,
       (REG_OUTX_L_XL + 2) % 256, (REG_OUTX_L_XL + 4) % 256,
       (REG_OUT_X_L + 2) % 256, (REG_OUT_X_L + 4) % 256] =
        [0x24, 0x26, 0x2A, 0x2C, 0x2A, 0x2C] := by
  refine ⟨fun env addr reg s h => ?_, fun env a r k => ?_, by decide, by decide⟩
  · refine ⟨envWord env s.nRead, _, read16_le_reliable h addr reg s, ?_⟩
    simp [afterRead8, wordReadEvents]
  · simp [wordReadEvents, byteReadBlock, regWrites]

/-- Witness for C9: `read16_le` at low register `0xFF` on a concrete
environment reads its high byte at register `0x00`. -/
theorem register_addresses_wrap_mod256_witness :
    ∃ v s', read16_le (envOf fun _ => 9) ADDR_LSM6 0xFF initSt =
        Except.ok (v, s') ∧
      s'.trace = initSt.trace ++
        wordReadEvents (envOf fun _ => 9) ADDR_LSM6 0xFF initSt.nRead :=
  register_addresses_wrap_mod256.1 (envOf fun _ => 9) ADDR_LSM6 0xFF initSt
    ⟨rfl, fun _ => rfl, fun _ _ => rfl, fun _ => rfl⟩

/-- C10: the program is deterministic in the operating-system responses:
two runs whose `open`, `ioctl`, `write` and `read` calls return identical
results (and identical `errno` descriptions) issue the identical bus
transactions, produce identical console and error-stream output, and have
identical exit status. -/
theorem deterministic_in_os_responses (env1 env2 : Env) (fuel : Nat)
    (h1 : env1.openOk = env2.openOk)
    (h2 : ∀ k, env1.ioctlOk k = env2.ioctlOk k)
    (h3 : ∀ k n, env1.writeRes k n = env2.writeRes k n)
    (h4 : ∀ k, env1.readRes k = env2.readRes k)
    (h5 : env1.errStr = env2.errStr) :
    progMain env1 fuel = progMain env2 fuel := by
  obtain ⟨o1, i1, w1, r1, e1⟩ := env1
  obtain ⟨o2, i2, w2, r2, e2⟩ := env2
  have hi : i1 = i2 := funext h2
  have hw : w1 = w2 := funext fun k => funext (h3 k)
  have hr : r1 = r2 := funext h4
  cases h1; cases hi; cases hw; cases hr; cases h5
  rfl

/-- Witness for C10 at two (identical) concrete environments. -/
theorem deterministic_in_os_responses_witness :
    progMain (envOf fun k => k) 2 = progMain (envOf fun k => k) 2 :=
  deterministic_in_os_responses (envOf fun k => k) (envOf fun k => k) 2
    rfl (fun _ => rfl) (fun _ _ => rfl) (fun _ => rfl) rfl
